import Mathlib

/-!
# Verification of the kindle-highlights extraction and merge pipeline

Shallow embedding of the repository's two HTML extractors
(`kindle_highlights/parser.py`, here namespace `KH`, and `src/parser.py`,
here namespace `SRC`), of the export-store operations of
`kindle_highlights/scraper.py` / `src/scraper.py` (`book_to_dict`,
`save_book_progressively`, `load_existing_data`), and of the
stabilization polling loop of `KindleScraper.get_book_list`.

HTML documents are modelled as trees of element and text nodes, the shape
BeautifulSoup's `html.parser` backend produces; each parser function is
translated from the Python source over that tree.  External library
behaviour (BeautifulSoup finders, `html.unescape`, `re.search`, `int()`)
is modelled by small executable Lean functions documented at their
definitions.
-/

/-! ### Character-level string primitives

Python string methods (`strip`, `split`, `startswith`, `endswith`,
`replace`) and BeautifulSoup's whitespace handling are modelled by
structurally recursive functions over character lists, so that every
definition evaluates inside the kernel. -/

/-- Strip surrounding whitespace (Python `str.strip()` with no
argument). -/
def trimChars (cs : List Char) : List Char :=
  ((cs.dropWhile Char.isWhitespace).reverse.dropWhile Char.isWhitespace).reverse

/-- String-level strip. -/
def pyStrip (s : String) : String :=
  ⟨trimChars s.toList⟩

/-- Python `str.startswith` for a literal. -/
def pyStartsWith (s p : String) : Bool :=
  p.toList.isPrefixOf s.toList

/-- Python `str.endswith` for a literal. -/
def pyEndsWith (s p : String) : Bool :=
  p.toList.isSuffixOf s.toList

/-- Split into maximal whitespace-free words (Python `str.split()` with
no argument, which BeautifulSoup uses for multi-valued attributes such as
`class`). -/
def wordsAux : List Char → List Char → List (List Char)
  | [], acc => if acc.isEmpty then [] else [acc.reverse]
  | c :: rest, acc =>
    if c.isWhitespace then
      if acc.isEmpty then wordsAux rest [] else acc.reverse :: wordsAux rest []
    else wordsAux rest (c :: acc)

/-- Word split at the string level. -/
def pyWords (s : String) : List String :=
  (wordsAux s.toList []).map fun cs => (⟨cs⟩ : String)

/-- A parsed HTML node: either a text node or an element with a tag name,
an attribute list (first binding wins, as attributes are unique per tag),
and a list of children.  The whole parsed document is represented by a
synthetic root element with tag `"[document]"` and no attributes, which is
how BeautifulSoup represents the soup object itself. -/
inductive Node where
  | text (s : String)
  | elem (tag : String) (attrs : List (String × String)) (children : List Node)
deriving Repr

/-- Attribute lookup on an element; `none` on text nodes and absent
attributes (BeautifulSoup `tag.get(name)` returning `None`). -/
def Node.attr? (n : Node) (name : String) : Option String :=
  match n with
  | .text _ => none
  | .elem _ attrs _ => (attrs.find? (fun p => p.1 == name)).map (·.2)

/-- BeautifulSoup `tag.get(name, dflt)`. -/
def Node.attrD (n : Node) (name dflt : String) : String :=
  (n.attr? name).getD dflt

/-- Whether the node is an element with the given tag name. -/
def Node.tagIs (n : Node) (t : String) : Bool :=
  match n with
  | .text _ => false
  | .elem tg _ _ => tg == t

/-- The class list of an element: BeautifulSoup splits the `class`
attribute on whitespace into a list (`tag.get("class", [])`). -/
def Node.classes (n : Node) : List String :=
  match n.attr? "class" with
  | some s => pyWords s
  | none => []

/-- Whether the element carries the given CSS class. -/
def Node.hasClass (n : Node) (c : String) : Bool :=
  n.classes.contains c

/-- The children of a node (empty for text nodes). -/
def Node.childrenL (n : Node) : List Node :=
  match n with
  | .text _ => []
  | .elem _ _ cs => cs

mutual
/-- All proper descendants of a node in document (preorder) order: the
order in which BeautifulSoup's `descendants`, `find`, `find_all` and
`select` traverse them. -/
def Node.descendants : Node → List Node
  | .text _ => []
  | .elem _ _ cs => descList cs

/-- Preorder listing of a forest: each root followed by its descendants. -/
def descList : List Node → List Node
  | [] => []
  | c :: cs => c :: Node.descendants c ++ descList cs
end

mutual
/-- The text-node strings of a subtree in document order (the `strings`
of a BeautifulSoup tag). -/
def Node.strings : Node → List String
  | .text s => [s]
  | .elem _ _ cs => stringsList cs

/-- Text-node strings of a forest in document order. -/
def stringsList : List Node → List String
  | [] => []
  | c :: cs => Node.strings c ++ stringsList cs
end

/-- BeautifulSoup `get_text()`: concatenation of all text descendants. -/
def getTextRaw (n : Node) : String :=
  String.join n.strings

/-- BeautifulSoup `get_text(strip=True)`: each string stripped of
surrounding whitespace, then concatenated. -/
def getTextStrip (n : Node) : String :=
  String.join (n.strings.map pyStrip)

/-- BeautifulSoup `find_all` over the descendants of a node with an
arbitrary element predicate, in document order. -/
def findAll (n : Node) (p : Node → Bool) : List Node :=
  n.descendants.filter p

/-- BeautifulSoup `find` / `select_one`: first matching descendant. -/
def findFirst (n : Node) (p : Node → Bool) : Option Node :=
  (findAll n p).head?

/-- Predicate for `find(tag, class_=c)`: tag name plus CSS class. -/
def isTagClass (t c : String) (n : Node) : Bool :=
  n.tagIs t && n.hasClass c

/-- Predicate for `find(tag, id=i)`: tag name plus exact `id` attribute. -/
def isTagId (t i : String) (n : Node) : Bool :=
  n.tagIs t && n.attr? "id" == some i

/-- The traversal context of a node inside a document: its ancestors
(nearest first, ending at the document root), the nodes strictly before
it in document order (nearest first, i.e. reverse document order), and
its later siblings in order.  These realize BeautifulSoup's
`find_parent`, `find_previous` and `find_next_sibling`. -/
structure Ctx where
  ancestors : List Node
  preceding : List Node
  nextSibs : List Node
deriving Repr

mutual
/-- Index paths of all proper descendants of a node, in document
(preorder) order; a path lists the child indices from the node down. -/
def subPaths : Node → List (List Nat)
  | .text _ => []
  | .elem _ _ cs => subPathsList cs 0

/-- Index paths into a forest whose first tree has index `i`. -/
def subPathsList : List Node → Nat → List (List Nat)
  | [], _ => []
  | c :: cs, i => [i] :: (subPaths c).map (fun p => i :: p) ++ subPathsList cs (i + 1)
end

/-- The node a path points at, if the path is valid. -/
def nodeAt : Node → List Nat → Option Node
  | n, [] => some n
  | n, i :: p =>
    match n.childrenL[i]? with
    | some c => nodeAt c p
    | none => none

/-- Paths of all nodes of the document (root included), in document
order. -/
def pathsOf (root : Node) : List (List Nat) :=
  [] :: subPaths root

/-- Document-order comparison of paths: `pathBefore q p` holds when the
node at `q` is parsed strictly before the node at `p` (an ancestor comes
before its descendants). -/
def pathBefore : List Nat → List Nat → Bool
  | [], [] => false
  | [], _ :: _ => true
  | _ :: _, [] => false
  | a :: as, b :: bs => if a < b then true else if b < a then false else pathBefore as bs

/-- The context of the node at path `p`: ancestors nearest first, the
nodes parsed before it in reverse document order (so nearest first, as
`find_previous` searches), and its later siblings in order. -/
def ctxAt (root : Node) (p : List Nat) : Ctx :=
  { ancestors := ((List.range p.length).reverse.map (fun k => p.take k)).filterMap (nodeAt root),
    preceding := ((pathsOf root).filter (fun q => pathBefore q p)).reverse.filterMap (nodeAt root),
    nextSibs :=
      match p with
      | [] => []
      | _ =>
        match nodeAt root p.dropLast with
        | some parent => parent.childrenL.drop ((p.getLast?.getD 0) + 1)
        | none => [] }

/-- Every node of the document with its context, in document order. -/
def docWalk (root : Node) : List (Node × Ctx) :=
  (pathsOf root).filterMap fun p => (nodeAt root p).map (fun n => (n, ctxAt root p))

/-! ## Models of the Python standard library pieces the parsers use -/

/-- Numeric value of a digit run (the regex groups are `\d+`, so the runs
are nonempty ASCII digit sequences on the inputs of interest). -/
def digitsVal (ds : List Char) : Nat :=
  ds.foldl (fun a c => a * 10 + (c.toNat - 48)) 0

/-- Model of `re.search(pat + r"(\d+)", s)` specialised to the literal
patterns `"Page "` and `"Location "`: scan left to right for the first
position where the literal pattern is followed by at least one digit,
and return the value of the maximal digit run there. -/
def searchNumAfterAux (pat : List Char) : List Char → Option Nat
  | [] => none
  | l@(_ :: rest) =>
    if pat.isPrefixOf l then
      let ds := (l.drop pat.length).takeWhile Char.isDigit
      if ds.isEmpty then searchNumAfterAux pat rest else some (digitsVal ds)
    else searchNumAfterAux pat rest

/-- String-level wrapper for the regex model. -/
def searchNumAfter (pat s : String) : Option Nat :=
  searchNumAfterAux pat.toList s.toList

/-- Model of Python `int(s)` returning `none` where the builtin raises
`ValueError`: optional surrounding whitespace, an optional sign, then a
nonempty run of ASCII digits. -/
def pyInt? (s : String) : Option Int :=
  let cs := trimChars s.toList
  let signed : Int × List Char :=
    match cs with
    | '-' :: rest => (-1, rest)
    | '+' :: rest => (1, rest)
    | _ => (1, cs)
  if signed.2 ≠ [] ∧ signed.2.all Char.isDigit then
    some (signed.1 * Int.ofNat (digitsVal signed.2))
  else
    none

/-- Model of Python `html.unescape` restricted to the four basic named
character references; other ampersand sequences are left unchanged.  The
source only ever feeds it text already extracted from the parsed tree,
and no property proved here depends on any further entity. -/
def unescapeAux : List Char → List Char
  | [] => []
  | '&' :: 'a' :: 'm' :: 'p' :: ';' :: rest => '&' :: unescapeAux rest
  | '&' :: 'l' :: 't' :: ';' :: rest => '<' :: unescapeAux rest
  | '&' :: 'g' :: 't' :: ';' :: rest => '>' :: unescapeAux rest
  | '&' :: 'q' :: 'u' :: 'o' :: 't' :: ';' :: rest => '"' :: unescapeAux rest
  | c :: rest => c :: unescapeAux rest

/-- String-level wrapper for the `html.unescape` model. -/
def pyUnescape (s : String) : String :=
  ⟨unescapeAux s.toList⟩

/-- Python `author_text.replace("By: ", "")`: remove every occurrence of
the literal `"By: "`, scanning left to right. -/
def stripByLabelAux : List Char → List Char
  | 'B' :: 'y' :: ':' :: ' ' :: rest => stripByLabelAux rest
  | c :: rest => c :: stripByLabelAux rest
  | [] => []

/-- String-level wrapper for the `replace("By: ", "")` model. -/
def stripByLabel (s : String) : String :=
  ⟨stripByLabelAux s.toList⟩

/-- Python `raw_author.removeprefix("By:")`. -/
def removeByColon (s : String) : String :=
  match s.toList with
  | 'B' :: 'y' :: ':' :: rest => ⟨rest⟩
  | _ => s

/-! ## The normalized document model

Both Python modules define isomorphic `Highlight` and `Book` dataclasses
(they differ only in dataclass field order); one Lean structure per record
serves both embeddings.  `parse_book_library` returns plain dicts with the
four string keys below in both modules, modelled by `LibBook`. -/

/-- A library-listing entry: the dict
`{"asin", "title", "author", "cover_url"}` built by `parse_book_library`. -/
structure LibBook where
  asin : String
  title : String
  author : String
  cover_url : String
deriving Repr, DecidableEq

/-- The `Highlight` dataclass of both parser modules.  `none` models
Python `None` for the optional page, location and note. -/
structure Highlight where
  id : String
  color : String
  text : String
  page : Option Int := none
  location : Option Int := none
  note : Option String := none
deriving Repr, DecidableEq

/-- The `Book` dataclass of both parser modules. -/
structure Book where
  asin : String
  title : String
  author : String
  cover_url : String
  highlights : List Highlight
deriving Repr, DecidableEq

/-- `extract_page_location` (textually identical in
`kindle_highlights/parser.py` and `src/parser.py`): two independent regex
searches for `Page (\d+)` and `Location (\d+)`. -/
def extract_page_location (s : String) : Option Int × Option Int :=
  ((searchNumAfter "Page " s).map Int.ofNat,
   (searchNumAfter "Location " s).map Int.ofNat)

namespace KH

/-! Embedding of `src/kindle_highlights/parser.py` (the package module). -/

/-- `extract_color_from_classes`: the first class whose name ends in one
of the four color suffixes decides the color; default yellow. -/
def colorOfClass (c : String) : Option String :=
  if pyEndsWith c "-yellow" then some "yellow"
  else if pyEndsWith c "-blue" then some "blue"
  else if pyEndsWith c "-pink" then some "pink"
  else if pyEndsWith c "-orange" then some "orange"
  else none

/-- `kindle_highlights.parser.extract_color_from_classes`. -/
def extract_color_from_classes (classes : List String) : String :=
  (classes.findSome? colorOfClass).getD "yellow"

/-- The body of the `for book_elem in book_elements` loop of
`kindle_highlights.parser.parse_book_library`: `None` models `continue`
on an entry whose `id` attribute is missing or empty. -/
def libEntry (e : Node) : Option LibBook :=
  let asin := e.attrD "id" ""
  if asin = "" then none
  else
    let title :=
      match findFirst e (isTagClass "h2" "kp-notebook-searchable") with
      | some t => getTextStrip t
      | none => ""
    let author_text :=
      match findFirst e (isTagClass "p" "kp-notebook-searchable") with
      | some a => getTextStrip a
      | none => ""
    let author :=
      if pyStartsWith author_text "By: " then stripByLabel author_text
      else author_text
    let cover_url :=
      match findFirst e (isTagClass "img" "kp-notebook-cover-image") with
      | some i => i.attrD "src" ""
      | none => ""
    some ⟨asin, title, author, cover_url⟩

/-- `kindle_highlights.parser.parse_book_library`. -/
def parse_book_library (root : Node) : List LibBook :=
  let book_elements :=
    match findFirst root (isTagId "div" "kp-notebook-library") with
    | some library => findAll library (isTagClass "div" "kp-notebook-library-each-book")
    | none => findAll root (isTagClass "div" "kp-notebook-library-each-book")
  book_elements.filterMap libEntry

/-- The body of the `for block in annotation_blocks` loop of
`kindle_highlights.parser.parse_annotations_html`: `None` models both the
two `continue` statements and the final `if text and highlight_id` guard
not being taken. -/
def highlightOfBlock (block : Node) : Option Highlight :=
  let highlight_id := block.attrD "id" ""
  if highlight_id = "" then none
  else
    match findFirst block (isTagClass "div" "kp-notebook-highlight") with
    | none => none
    | some highlight_elem =>
      let color := extract_color_from_classes highlight_elem.classes
      let text :=
        match findFirst highlight_elem (isTagClass "span" "a-size-base-plus") with
        | some t => getTextStrip t
        | none => ""
      let pl :=
        match findFirst block (isTagId "span" "annotationHighlightHeader") with
        | some h => extract_page_location (getTextRaw h)
        | none => (none, none)
      let location :=
        match pl.2 with
        | some l => some l
        | none =>
          match findFirst block (isTagId "input" "kp-annotation-location") with
          | some inp =>
            match inp.attr? "value" with
            | some v => if v = "" then none else pyInt? v
            | none => none
          | none => none
      let note :=
        match findFirst block (isTagClass "div" "kp-notebook-note") with
        | some note_elem =>
          match findFirst note_elem (isTagClass "span" "a-size-base-plus") with
          | some ne => some (getTextStrip ne)
          | none => none
        | none => none
      if text ≠ "" ∧ highlight_id ≠ "" then
        some { id := highlight_id, color := color, text := text,
               page := pl.1, location := location, note := note }
      else none

/-- `kindle_highlights.parser.parse_annotations_html`. -/
def parse_annotations_html (root : Node) : List Highlight :=
  match findFirst root (isTagId "div" "kp-notebook-annotations") with
  | none => []
  | some container =>
    let blocks := findAll container (fun n => n.tagIs "div" && (n.attr? "id").isSome)
    blocks.filterMap highlightOfBlock

/-- `kindle_highlights.parser.parse_book_from_annotations_page`. -/
def parse_book_from_annotations_page (root : Node) : Option Book :=
  let asin :=
    match findFirst root (isTagId "input" "kp-notebook-annotations-asin") with
    | some i => i.attrD "value" ""
    | none => ""
  let title :=
    match findFirst root (isTagClass "h3" "kp-notebook-metadata") with
    | some t => getTextStrip t
    | none => ""
  let author :=
    (((findAll root (isTagClass "p" "kp-notebook-metadata")).map getTextStrip).find?
      (fun t => t != "" && !pyStartsWith t "Your Kindle Notes For:"
        && !pyStartsWith t "Last accessed")).getD ""
  let cover_url :=
    match findFirst root (isTagClass "img" "kp-notebook-cover-image-border") with
    | some c => c.attrD "src" ""
    | none => ""
  let highlights := parse_annotations_html root
  if asin = "" ∨ title = "" then none
  else some ⟨asin, title, author, cover_url, highlights⟩

end KH

namespace SRC

/-! Embedding of `src/src/parser.py` (the flat module). -/

/-- `src.parser.extract_color_from_classes`: exact lookup in the
class-to-color dict; the first class found in the dict wins. -/
def colorMap (c : String) : Option String :=
  if c = "kp-notebook-highlight-yellow" then some "yellow"
  else if c = "kp-notebook-highlight-blue" then some "blue"
  else if c = "kp-notebook-highlight-pink" then some "pink"
  else if c = "kp-notebook-highlight-orange" then some "orange"
  else none

/-- `src.parser.extract_color_from_classes`. -/
def extract_color_from_classes (classes : List String) : String :=
  (classes.findSome? colorMap).getD "yellow"

/-- The body of the `for book_element in book_elements` loop of
`src.parser.parse_book_library`: every selected element yields an entry,
with empty-string defaults (no skip on a missing `id`). -/
def libEntry (e : Node) : LibBook :=
  let asin := e.attrD "id" ""
  let searchables := findAll e (fun n => n.hasClass "kp-notebook-searchable")
  let title :=
    match searchables.head? with
    | some s => pyUnescape (getTextStrip s)
    | none => ""
  let author :=
    match searchables[1]? with
    | some s =>
      let raw := getTextStrip s
      pyUnescape (pyStrip (removeByColon raw))
    | none => ""
  let cover_url :=
    match (findAll e (fun n => n.tagIs "img")).head? with
    | some c => c.attrD "src" ""
    | none => ""
  ⟨asin, title, author, cover_url⟩

/-- `src.parser.parse_book_library`: CSS select of every element with the
book class, one entry per element. -/
def parse_book_library (root : Node) : List LibBook :=
  (findAll root (fun n => n.hasClass "kp-notebook-library-each-book")).map libEntry

/-- The body of the `for element in highlight_elements` loop of
`src.parser.parse_annotations_html`; `ctx` is the document context of the
selected element, realizing `find_parent(id=True)`,
`find_previous("span", id="annotationHighlightHeader")` and
`find_next_sibling("div", class_="kp-notebook-note")`. -/
def highlightOf (n : Node) (ctx : Ctx) : Highlight :=
  let hid := n.attrD "id" ""
  let highlight_id :=
    if hid = "" then
      match ctx.ancestors.find? (fun a => (a.attr? "id").isSome) with
      | some p => p.attrD "id" ""
      | none => ""
    else hid
  let textNode := ((findAll n (fun d => d.hasClass "a-size-base-plus")).head?).getD n
  let text := pyUnescape (getTextStrip textNode)
  let color := extract_color_from_classes n.classes
  let headerText :=
    match ctx.preceding.find? (isTagId "span" "annotationHighlightHeader") with
    | some h => getTextStrip h
    | none => ""
  let pl := extract_page_location headerText
  let note :=
    match ctx.nextSibs.find? (isTagClass "div" "kp-notebook-note") with
    | some ne =>
      match (findAll ne (fun d => d.hasClass "a-size-base-plus")).head? with
      | some sp => some (pyUnescape (getTextStrip sp))
      | none => none
    | none => none
  { id := highlight_id, color := color, text := text,
    page := pl.1, location := pl.2, note := note }

/-- `src.parser.parse_annotations_html`: CSS select
`#kp-notebook-annotations .kp-notebook-highlight` (elements with the
highlight class strictly below an element with the annotations id), one
highlight per element, with no emptiness guard. -/
def parse_annotations_html (root : Node) : List Highlight :=
  (docWalk root).filterMap fun nc =>
    if nc.1.hasClass "kp-notebook-highlight"
        && nc.2.ancestors.any (fun a => a.attr? "id" == some "kp-notebook-annotations")
    then some (highlightOf nc.1 nc.2)
    else none

/-- `src.parser.parse_book_from_annotations_page`: `None` only when the
first metadata element is missing or fewer than three metadata elements
exist; no emptiness check on `asin` or `title`. -/
def parse_book_from_annotations_page (root : Node) : Option Book :=
  let metadata := findAll root (fun n => n.hasClass "kp-notebook-metadata")
  match metadata.head? with
  | none => none
  | some title_elem =>
    if metadata.length < 3 then none
    else
      let title := pyUnescape (getTextStrip title_elem)
      let author :=
        match metadata[2]? with
        | some a => pyUnescape (getTextStrip a)
        | none => ""
      let cover_url :=
        match (findAll root (fun n => n.hasClass "kp-notebook-cover-image-border")).head? with
        | some c => c.attrD "src" ""
        | none => ""
      let asin :=
        match (findAll root (fun n => n.attr? "id" == some "kp-notebook-annotations-asin")).head? with
        | some i => i.attrD "value" ""
        | none => ""
      some ⟨asin, title, author, cover_url, parse_annotations_html root⟩

end SRC

/-! ## The export store (`KindleScraper` of both scraper modules)

`kindle_highlights/scraper.py` and `src/scraper.py` implement
`book_to_dict`, `save_book_progressively` and `load_existing_data` with
identical logic (the flat module merely adds TypedDict annotations); one
embedding serves both.  `datetime.now().isoformat() + "Z"` is modelled by
a `now : String` parameter. -/

/-- The serialized form of one highlight inside the stored JSON: a dict
whose `page`, `location` and `note` keys may be absent (`none`). -/
structure HighlightDict where
  id : String
  color : String
  text : String
  page : Option Int
  location : Option Int
  note : Option String
deriving Repr, DecidableEq

/-- The serialized form of one book inside the stored JSON. -/
structure BookDict where
  asin : String
  title : String
  author : String
  cover_url : String
  highlights : List HighlightDict
deriving Repr, DecidableEq

/-- The `run` metadata object of the store. -/
structure RunMeta where
  timestamp : Option String
deriving Repr, DecidableEq

/-- The persisted export store: `{"run": {...}, "books": [...]}`. -/
structure ExportData where
  run : RunMeta
  books : List BookDict
deriving Repr, DecidableEq

/-- The per-highlight body of the loop in `KindleScraper.book_to_dict`:
the `page` and `location` keys are set exactly when the values are not
`None`, while the `note` key is set only when the note is truthy — so a
`note` equal to `""` is dropped like an absent one. -/
def highlightToDict (h : Highlight) : HighlightDict :=
  { id := h.id, color := h.color, text := h.text,
    page := h.page,
    location := h.location,
    note := match h.note with
      | some s => if s = "" then none else some s
      | none => none }

/-- `KindleScraper.book_to_dict`. -/
def book_to_dict (b : Book) : BookDict :=
  { asin := b.asin, title := b.title, author := b.author,
    cover_url := b.cover_url,
    highlights := b.highlights.map highlightToDict }

/-- The `for i, existing_book in enumerate(data["books"])` replacement
loop of `KindleScraper.save_book_progressively`: overwrite the first
entry with the matching asin and `break`. -/
def updateFirst (asin : String) (bd : BookDict) : List BookDict → List BookDict
  | [] => []
  | b :: bs => if b.asin = asin then bd :: bs else b :: updateFirst asin bd bs

/-- `KindleScraper.save_book_progressively` after the initial load:
replace the first entry whose asin matches (if any asin matches),
otherwise append, and refresh `run.timestamp`; `data` is the store state
returned by `load_existing_data` and `now` the current timestamp. -/
def save_book_progressively (book : Book) (data : ExportData) (now : String) : ExportData :=
  let book_dict := book_to_dict book
  let books :=
    if data.books.any (fun b => b.asin == book.asin) then
      updateFirst book.asin book_dict data.books
    else
      data.books ++ [book_dict]
  { run := { timestamp := some now }, books := books }

/-! ## Loading the store (`KindleScraper.load_existing_data`)

The Python code is
```
if not Path(output_path).exists(): return fresh
try:
    with open(output_path, encoding="utf-8") as f: return json.load(f)
except (json.JSONDecodeError, IOError): return fresh
```
The file system and the stdlib readers are external, so the embedding
takes the outcome of the open/read/parse pipeline as input: the file can
be missing, the pipeline can raise a Python exception, or it can produce
a value.  The relevant exception classes and which of them the `except`
clause catches follow Python's actual class hierarchy: `IOError` is an
alias of `OSError` and `json.JSONDecodeError` is a `ValueError`
subclass, but `UnicodeDecodeError` (raised by `f.read()` inside
`json.load` when the file bytes are not valid UTF-8) subclasses only
`UnicodeError`/`ValueError` and is therefore caught by neither. -/

/-- The exceptions the open/read/parse pipeline of `load_existing_data`
can raise. -/
inductive PyExc where
  | osError
  | jsonDecodeError
  | unicodeDecodeError
deriving Repr, DecidableEq

/-- Whether `except (json.JSONDecodeError, IOError)` catches the
exception, per Python's exception class hierarchy. -/
def caughtByLoadHandler : PyExc → Bool
  | .osError => true
  | .jsonDecodeError => true
  | .unicodeDecodeError => false

/-- Outcome of `Path(output_path).exists()` plus
`open(...)`/`json.load(...)` on the file at `output_path`: the file is
missing, or reading/parsing raises, or parsing succeeds.  A success is
carried as the store value (the code validates nothing and returns the
parsed value as is). -/
inductive FileReadResult where
  | missing
  | raises (e : PyExc)
  | ok (d : ExportData)
deriving Repr, DecidableEq

/-- The fresh empty state `{"run": {"timestamp": now}, "books": []}`. -/
def empty_export (now : String) : ExportData :=
  { run := { timestamp := some now }, books := [] }

/-- `KindleScraper.load_existing_data`: `.error e` models an uncaught
exception propagating out of the function. -/
def load_existing_data (f : FileReadResult) (now : String) : Except PyExc ExportData :=
  match f with
  | .missing => .ok (empty_export now)
  | .raises e => if caughtByLoadHandler e then .ok (empty_export now) else .error e
  | .ok d => .ok d

/-! ## The stabilization polling loop (`KindleScraper.get_book_list`)

The loop is
```
last_count = 0; stable_count = 0
while stable_count < 3:
    scroll(); wait()
    current_count = count()
    if current_count == last_count: stable_count += 1
    else: stable_count = 0; last_count = current_count
```
The embedding runs the loop against a given finite list of successive
observed counts and returns the number of observations consumed before
the loop condition fails, or `none` when the list is exhausted with the
loop still running (the real loop would keep polling). -/

/-- The polling loop of `KindleScraper.get_book_list` (identical in
`scrape_book_highlights`), generalized over the threshold that the
source fixes to `3`. -/
def get_book_list_poll (threshold : Nat) : List Nat → Nat → Nat → Option Nat
  | [], _, stable_count => if threshold ≤ stable_count then some 0 else none
  | current_count :: rest, last_count, stable_count =>
    if threshold ≤ stable_count then some 0
    else
      (if current_count = last_count then
        get_book_list_poll threshold rest last_count (stable_count + 1)
      else
        get_book_list_poll threshold rest current_count 0).map (· + 1)

/-! ## Concrete documents used as counterexamples and witnesses

Each constant is the parse tree of a small HTML fragment, written in the
shape `html.parser` produces (synthetic `[document]` root). -/

/-- `BeautifulSoup("", "html.parser")`: the empty input parses to a
document node with no children. -/
def emptyDoc : Node := .elem "[document]" [] []

/-- `<div id="kp-notebook-annotations"><div class="kp-notebook-highlight">
</div></div>`: a highlight block with no text span and no own id. -/
def hlNoTextDoc : Node := .elem "[document]" []
  [.elem "div" [("id", "kp-notebook-annotations")]
    [.elem "div" [("class", "kp-notebook-highlight")] []]]

/-- `<div id="kp-notebook-annotations"><div id="H1"><div
class="kp-notebook-highlight kp-notebook-highlight-blue"><span
class="a-size-base-plus">Some text</span></div></div></div>`: one
well-formed highlight block. -/
def oneHighlightDoc : Node := .elem "[document]" []
  [.elem "div" [("id", "kp-notebook-annotations")]
    [.elem "div" [("id", "H1")]
      [.elem "div" [("class", "kp-notebook-highlight kp-notebook-highlight-blue")]
        [.elem "span" [("class", "a-size-base-plus")] [.text "Some text"]]]]]

/-- `<div class="kp-notebook-library-each-book"></div>`: a library entry
whose `id` (asin) attribute is missing. -/
def idlessEntryDoc : Node := .elem "[document]" []
  [.elem "div" [("class", "kp-notebook-library-each-book")] []]

/-- A library entry with a title but no `id` attribute. -/
def idlessTitledEntryDoc : Node := .elem "[document]" []
  [.elem "div" [("class", "kp-notebook-library-each-book")]
    [.elem "h2" [("class", "kp-notebook-searchable")] [.text "T"]]]

/-- A library entry with asin `B00X` and nothing else. -/
def asinOnlyEntryDoc : Node := .elem "[document]" []
  [.elem "div" [("id", "B00X"), ("class", "kp-notebook-library-each-book")] []]

/-- A book page with three metadata fields but no asin input: title
`My Title`, the notes label, and author `Jane Doe`. -/
def noAsinBookPageDoc : Node := .elem "[document]" []
  [.elem "div" [("class", "kp-notebook-metadata")] [.text "My Title"],
   .elem "div" [("class", "kp-notebook-metadata")] [.text "Your Kindle Notes For:"],
   .elem "div" [("class", "kp-notebook-metadata")] [.text "Jane Doe"]]

/-- A book page with asin input `B0001` and title heading `Title`. -/
def asinTitleBookPageDoc : Node := .elem "[document]" []
  [.elem "input" [("id", "kp-notebook-annotations-asin"), ("value", "B0001")] [],
   .elem "h3" [("class", "kp-notebook-metadata")] [.text "Title"]]

/-- A store holding one book with asin `A1`. -/
def oneBookData : ExportData :=
  { run := { timestamp := some "2025-01-01T00:00:00Z" },
    books := [{ asin := "A1", title := "Old", author := "X", cover_url := "",
                highlights := [] }] }

/-- A freshly scraped book carrying the stored asin `A1`. -/
def rescrapedBook : Book :=
  { asin := "A1", title := "New", author := "Y", cover_url := "c", highlights := [] }

/-! ## Helper lemmas -/

/-- Any highlight the package per-block extractor emits has survived the
final `if text and highlight_id` guard. -/
theorem KH.highlightOfBlock_fields (block : Node) (h : Highlight)
    (hb : KH.highlightOfBlock block = some h) : h.id ≠ "" ∧ h.text ≠ "" := by
  simp only [KH.highlightOfBlock] at hb
  split at hb
  · simp at hb
  · split at hb
    · simp at hb
    · split at hb
      · rename_i hcond
        rw [Option.some_inj] at hb
        subst hb
        exact ⟨hcond.2, hcond.1⟩
      · simp at hb

/-- Any entry the package library loop emits has passed the
`if not asin: continue` guard. -/
theorem KH.libEntry_fields (n : Node) (e : LibBook)
    (hn : KH.libEntry n = some e) : e.asin ≠ "" := by
  simp only [KH.libEntry] at hn
  split at hn
  · simp at hn
  · rename_i hne
    rw [Option.some_inj] at hn
    subst hn
    exact hne

/-- Replacing the first asin match: when no entry of `pre` matches and
`b` does, `updateFirst` rewrites exactly the entry between `pre` and
`post`. -/
theorem updateFirst_replace (asin : String) (bd : BookDict) :
    ∀ (pre : List BookDict) (b : BookDict) (post : List BookDict),
      (∀ x ∈ pre, x.asin ≠ asin) → b.asin = asin →
      updateFirst asin bd (pre ++ b :: post) = pre ++ bd :: post := by
  intro pre
  induction pre with
  | nil => intro b post _ hb; simp [updateFirst, hb]
  | cons x xs ih =>
    intro b post hpre hb
    have hx : x.asin ≠ asin := hpre x (by simp)
    simp only [List.cons_append, updateFirst, if_neg hx]
    exact congrArg (x :: ·) (ih b post (fun y hy => hpre y (by simp [hy])) hb)

/-- `updateFirst` is a no-op once the list already stores `bd` as its
first match. -/
theorem updateFirst_idem (asin : String) (bd : BookDict) (hbd : bd.asin = asin) :
    ∀ l : List BookDict, l.any (fun x => x.asin == asin) = true →
      updateFirst asin bd (updateFirst asin bd l) = updateFirst asin bd l := by
  intro l
  induction l with
  | nil => simp
  | cons x xs ih =>
    intro hany
    by_cases hx : x.asin = asin
    · simp [updateFirst, hx, hbd]
    · have hxs : xs.any (fun x => x.asin == asin) = true := by
        simpa [List.any_cons, hx] using hany
      simp [updateFirst, hx, ih hxs]

/-- `updateFirst` still has a match after running once. -/
theorem updateFirst_any (asin : String) (bd : BookDict) (hbd : bd.asin = asin) :
    ∀ l : List BookDict, l.any (fun x => x.asin == asin) = true →
      (updateFirst asin bd l).any (fun x => x.asin == asin) = true := by
  intro l
  induction l with
  | nil => simp
  | cons x xs ih =>
    intro hany
    by_cases hx : x.asin = asin
    · simp [updateFirst, hx, hbd]
    · have hxs : xs.any (fun x => x.asin == asin) = true := by
        simpa [List.any_cons, hx] using hany
      simp [updateFirst, hx, ih hxs]

/-- Appending the serialized book to a matchless list and updating again
changes nothing. -/
theorem updateFirst_append (asin : String) (bd : BookDict) (hbd : bd.asin = asin) :
    ∀ l : List BookDict, l.any (fun x => x.asin == asin) = false →
      updateFirst asin bd (l ++ [bd]) = l ++ [bd] := by
  intro l
  induction l with
  | nil => simp [updateFirst, hbd]
  | cons x xs ih =>
    intro hany
    have hx : ¬ x.asin = asin := by
      intro hx
      simp [List.any_cons, hx] at hany
    have hxs : xs.any (fun x => x.asin == asin) = false := by
      simpa [List.any_cons, hx] using hany
    simp [updateFirst, hx, ih hxs]

/-! ## Claim theorems -/

/-- Claim C1 (counterexample): the flat-module highlight extractor
`src.parser.parse_annotations_html` emits a highlight with empty `text`
(and an id inherited from the annotations container) for a highlight
block that has no text span, so the invariant "every emitted highlight
has non-empty id and text" fails on that implementation. -/
theorem src_annotations_empty_text_emitted :
    ¬ (∀ h ∈ SRC.parse_annotations_html hlNoTextDoc, h.id ≠ "" ∧ h.text ≠ "") := by
  intro hall
  exact (hall { id := "kp-notebook-annotations", color := "yellow", text := "" }
    (by decide)).2 rfl

/-- Claim C1 (amended): the package highlight extractor
`kindle_highlights.parser.parse_annotations_html` never emits a highlight
with empty `id` or empty `text`, for every input document. -/
theorem kh_annotations_fields_nonempty (root : Node) (h : Highlight)
    (hmem : h ∈ KH.parse_annotations_html root) : h.id ≠ "" ∧ h.text ≠ "" := by
  unfold KH.parse_annotations_html at hmem
  split at hmem
  · simp at hmem
  · obtain ⟨b, -, hb⟩ := List.mem_filterMap.mp hmem
    exact KH.highlightOfBlock_fields b h hb

/-- Claim C1 (witness): the amended theorem applied to a document whose
single highlight block yields id `H1` and text `Some text`. -/
theorem kh_annotations_fields_nonempty_witness :
    ({ id := "H1", color := "blue", text := "Some text" } : Highlight).id ≠ ""
    ∧ ({ id := "H1", color := "blue", text := "Some text" } : Highlight).text ≠ "" :=
  kh_annotations_fields_nonempty oneHighlightDoc _ (by decide)

/-- Claim C2: `save_book_progressively` refreshes `run.timestamp` to the
current instant; when an entry with the book's asin exists it is replaced
in place (the entries before and after it are unchanged and keep their
positions, so nothing is appended or removed); when no entry matches, the
serialized book is appended at the end. -/
theorem save_book_progressively_upserts (data : ExportData) (book : Book) (now : String) :
    (save_book_progressively book data now).run.timestamp = some now
    ∧ (∀ pre b post, data.books = pre ++ b :: post → b.asin = book.asin →
        (∀ x ∈ pre, x.asin ≠ book.asin) →
        (save_book_progressively book data now).books = pre ++ book_to_dict book :: post)
    ∧ ((∀ x ∈ data.books, x.asin ≠ book.asin) →
        (save_book_progressively book data now).books = data.books ++ [book_to_dict book]) := by
  refine ⟨rfl, ?_, ?_⟩
  · intro pre b post hsplit hb hpre
    have hany : data.books.any (fun x => x.asin == book.asin) = true := by
      rw [hsplit]
      exact List.any_eq_true.mpr ⟨b, by simp, by simp [hb]⟩
    simp only [save_book_progressively, hany, if_true]
    rw [hsplit]
    exact updateFirst_replace _ _ pre b post hpre hb
  · intro hall
    have hany : data.books.any (fun x => x.asin == book.asin) = false := by
      rw [List.any_eq_false]
      intro x hx
      simpa using hall x hx
    simp [save_book_progressively, hany]

/-- Claim C2 (witness): upserting `rescrapedBook` into a store whose only
entry carries the same asin `A1` replaces that entry and refreshes the
timestamp. -/
theorem save_book_progressively_upserts_witness :
    (save_book_progressively rescrapedBook oneBookData "2025-01-02T00:00:00Z").run.timestamp
      = some "2025-01-02T00:00:00Z"
    ∧ (save_book_progressively rescrapedBook oneBookData "2025-01-02T00:00:00Z").books
      = [] ++ book_to_dict rescrapedBook :: [] :=
  ⟨(save_book_progressively_upserts oneBookData rescrapedBook "2025-01-02T00:00:00Z").1,
   (save_book_progressively_upserts oneBookData rescrapedBook "2025-01-02T00:00:00Z").2.1
     [] { asin := "A1", title := "Old", author := "X", cover_url := "", highlights := [] } []
     rfl rfl (by simp)⟩

/-- The books stored by an upsert whose asin scan found a match. -/
theorem save_books_of_any_true (book : Book) (d : ExportData) (t : String)
    (h : d.books.any (fun x => x.asin == book.asin) = true) :
    (save_book_progressively book d t).books
      = updateFirst book.asin (book_to_dict book) d.books := by
  simp [save_book_progressively, h]

/-- The books stored by an upsert whose asin scan found no match. -/
theorem save_books_of_any_false (book : Book) (d : ExportData) (t : String)
    (h : d.books.any (fun x => x.asin == book.asin) = false) :
    (save_book_progressively book d t).books = d.books ++ [book_to_dict book] := by
  simp [save_book_progressively, h]

/-- Claim C3: upsert is idempotent — upserting the same book twice leaves
the stored `books` sequence of the second write identical to the first
(timestamps aside), and in particular of the same length. -/
theorem save_book_progressively_idempotent (data : ExportData) (book : Book) (t1 t2 : String) :
    (save_book_progressively book (save_book_progressively book data t1) t2).books
      = (save_book_progressively book data t1).books
    ∧ (save_book_progressively book (save_book_progressively book data t1) t2).books.length
      = (save_book_progressively book data t1).books.length := by
  have hbd : (book_to_dict book).asin = book.asin := rfl
  have hmain :
      (save_book_progressively book (save_book_progressively book data t1) t2).books
        = (save_book_progressively book data t1).books := by
    by_cases hany : data.books.any (fun x => x.asin == book.asin) = true
    · have h1 := save_books_of_any_true book data t1 hany
      have h2 : (save_book_progressively book data t1).books.any
          (fun x => x.asin == book.asin) = true := by
        rw [h1]
        exact updateFirst_any book.asin (book_to_dict book) hbd data.books hany
      rw [save_books_of_any_true book _ t2 h2, h1]
      exact updateFirst_idem book.asin (book_to_dict book) hbd data.books hany
    · have hfalse : data.books.any (fun x => x.asin == book.asin) = false :=
        Bool.eq_false_iff.mpr hany
      have h1 := save_books_of_any_false book data t1 hfalse
      have h2 : (save_book_progressively book data t1).books.any
          (fun x => x.asin == book.asin) = true := by
        rw [h1, List.any_append]
        simp [hbd]
      rw [save_books_of_any_true book _ t2 h2, h1]
      exact updateFirst_append book.asin (book_to_dict book) hbd data.books hfalse
  exact ⟨hmain, by rw [hmain]⟩

/-- Claim C4 (counterexample): with threshold 3 and initial last-count 0,
the polling loop of `KindleScraper.get_book_list` is still running after
the first seven observations of `[3,5,5,5,8,8,8,8]` — it needs all eight
(the comparison against the previous count resets the streak on the
observation `8` that changes the count, so three unchanged checks only
complete at the eighth). -/
theorem poll_not_done_after_seventh :
    get_book_list_poll 3 [3, 5, 5, 5, 8, 8, 8] 0 0 = none
    ∧ get_book_list_poll 3 [3, 5, 5, 5, 8, 8, 8, 8] 0 0 = some 8 := ⟨rfl, rfl⟩

/-- Claim C4 (amended): against the observed counts `[3,5,5,5,8,8,8,8]`
with threshold 3 and initial last-count 0, the loop terminates after the
8th observation and not earlier (every proper prefix leaves it still
polling). -/
theorem poll_done_after_eighth :
    get_book_list_poll 3 [3, 5, 5, 5, 8, 8, 8, 8] 0 0 = some 8
    ∧ ∀ k < 8, get_book_list_poll 3 ([3, 5, 5, 5, 8, 8, 8, 8].take k) 0 0 = none :=
  ⟨rfl, by decide⟩

/-- Claim C4 (witness): the amended theorem instantiated at the prefix of
length 7. -/
theorem poll_done_after_eighth_witness :
    get_book_list_poll 3 ([3, 5, 5, 5, 8, 8, 8, 8].take 7) 0 0 = none :=
  poll_done_after_eighth.2 7 (by decide)

/-- Claim C5 (counterexample): the two `parse_book_library`
implementations disagree on a library entry with no `id` attribute — the
package implementation skips it, the flat module emits a record with
empty asin — so the implementations are not behaviorally equivalent. -/
theorem extractors_differ_on_idless_entry :
    KH.parse_book_library idlessEntryDoc ≠ SRC.parse_book_library idlessEntryDoc := by
  decide

/-- Claim C5 (amended): the two implementations are not equivalent in
general (they differ, e.g., on library entries lacking an id attribute);
on the empty document all three entry-point pairs do agree. -/
theorem extractors_agree_on_empty_document :
    KH.parse_book_library emptyDoc = SRC.parse_book_library emptyDoc
    ∧ KH.parse_annotations_html emptyDoc = SRC.parse_annotations_html emptyDoc
    ∧ KH.parse_book_from_annotations_page emptyDoc
      = SRC.parse_book_from_annotations_page emptyDoc :=
  ⟨rfl, rfl, rfl⟩

/-- Claim C6 (counterexample): the flat-module
`src.parser.parse_book_from_annotations_page` returns a Book with empty
asin on a page with three metadata fields and no asin input; it checks
only that a first metadata element exists and that there are at least
three, not asin or title emptiness. -/
theorem src_book_page_empty_asin_emitted :
    ¬ (∀ b : Book, SRC.parse_book_from_annotations_page noAsinBookPageDoc = some b →
        b.asin ≠ "" ∧ b.title ≠ "") := by
  intro hall
  exact (hall ⟨"", "My Title", "Jane Doe", "", []⟩ (by decide)).1 rfl

/-- Claim C6 (amended): the package implementation
`kindle_highlights.parser.parse_book_from_annotations_page` returns
`None` whenever the extracted asin or title ends up empty, so it never
returns a Book with empty asin or empty title. -/
theorem kh_book_page_fields_nonempty (root : Node) (b : Book)
    (hb : KH.parse_book_from_annotations_page root = some b) :
    b.asin ≠ "" ∧ b.title ≠ "" := by
  simp only [KH.parse_book_from_annotations_page] at hb
  split at hb
  · simp at hb
  · rename_i hcond
    rw [Option.some_inj] at hb
    subst hb
    push_neg at hcond
    exact hcond

/-- Claim C6 (witness): the amended theorem applied to a page carrying
asin `B0001` and title `Title`. -/
theorem kh_book_page_fields_nonempty_witness :
    (⟨"B0001", "Title", "", "", []⟩ : Book).asin ≠ ""
    ∧ (⟨"B0001", "Title", "", "", []⟩ : Book).title ≠ "" :=
  kh_book_page_fields_nonempty asinTitleBookPageDoc _ (by decide)

/-- Claim C7 (counterexample): the flat-module
`src.parser.parse_book_library` emits an entry with empty asin for a book
element whose identifier attribute is missing, instead of skipping it. -/
theorem src_library_empty_asin_emitted :
    ¬ (∀ e ∈ SRC.parse_book_library idlessTitledEntryDoc, e.asin ≠ "") := by
  intro hall
  exact hall ⟨"", "T", "", ""⟩ (by decide) rfl

/-- Claim C7 (amended): every entry returned by the package library
extractor `kindle_highlights.parser.parse_book_library` has a non-empty
asin — entries whose `id` attribute is missing or empty are skipped. -/
theorem kh_library_asin_nonempty (root : Node) (e : LibBook)
    (hmem : e ∈ KH.parse_book_library root) : e.asin ≠ "" := by
  unfold KH.parse_book_library at hmem
  obtain ⟨n, -, hn⟩ := List.mem_filterMap.mp hmem
  exact KH.libEntry_fields n e hn

/-- Claim C7 (witness): the amended theorem applied to a library with one
entry of asin `B00X`. -/
theorem kh_library_asin_nonempty_witness :
    (⟨"B00X", "", "", ""⟩ : LibBook).asin ≠ "" :=
  kh_library_asin_nonempty asinOnlyEntryDoc _ (by decide)

/-- Claim C8: on the empty input (which parses to a childless document
node) all six extractor entry points return their empty or absent result:
both `parse_book_library`s return `[]`, both `parse_annotations_html`s
return `[]`, and both `parse_book_from_annotations_page`s return `None`;
being total Lean functions, the embeddings raise nothing. -/
theorem extractors_empty_input_empty_result :
    KH.parse_book_library emptyDoc = []
    ∧ KH.parse_annotations_html emptyDoc = []
    ∧ KH.parse_book_from_annotations_page emptyDoc = none
    ∧ SRC.parse_book_library emptyDoc = []
    ∧ SRC.parse_annotations_html emptyDoc = []
    ∧ SRC.parse_book_from_annotations_page emptyDoc = none :=
  ⟨rfl, rfl, rfl, rfl, rfl, rfl⟩

/-- Claim C9: `load_existing_data` recovers a fresh empty state from a
missing file and from `OSError`/`IOError` and `json.JSONDecodeError`,
but a file whose bytes are not valid UTF-8 makes `f.read()` inside
`json.load` raise `UnicodeDecodeError`, which the
`except (json.JSONDecodeError, IOError)` clause does not catch, so the
load propagates an exception instead of returning the fresh state. -/
theorem load_existing_data_unicode_uncaught :
    load_existing_data (FileReadResult.raises PyExc.unicodeDecodeError) "2025-10-12T00:00:00Z"
      = Except.error PyExc.unicodeDecodeError
    ∧ load_existing_data FileReadResult.missing "2025-10-12T00:00:00Z"
      = Except.ok (empty_export "2025-10-12T00:00:00Z")
    ∧ load_existing_data (FileReadResult.raises PyExc.jsonDecodeError) "2025-10-12T00:00:00Z"
      = Except.ok (empty_export "2025-10-12T00:00:00Z")
    ∧ load_existing_data (FileReadResult.raises PyExc.osError) "2025-10-12T00:00:00Z"
      = Except.ok (empty_export "2025-10-12T00:00:00Z") :=
  ⟨rfl, rfl, rfl, rfl⟩

/-- Claim C10: in `book_to_dict` a highlight whose note is the empty
string serializes identically to one whose note is absent (the `note` key
is dropped for both, making them indistinguishable in the store), while
`page` and `location` are copied whenever they are not `None` — in
particular a value of 0 is preserved. -/
theorem book_to_dict_empty_note_dropped_zero_kept (b : Book) (h : Highlight) :
    (book_to_dict { b with highlights := [{ h with note := some "" }] }).highlights
      = (book_to_dict { b with highlights := [{ h with note := none }] }).highlights
    ∧ (highlightToDict { h with page := some 0, location := some 0 }).page = some 0
    ∧ (highlightToDict { h with page := some 0, location := some 0 }).location = some 0
    ∧ (highlightToDict h).page = h.page
    ∧ (highlightToDict h).location = h.location
    ∧ (highlightToDict h).note
      = match h.note with
        | some s => if s = "" then none else some s
        | none => none :=
  ⟨rfl, rfl, rfl, rfl, rfl, rfl⟩
